import Mathlib

/-!
Verification of the QA Test-Sequence Execution Engine of the
Sensor-Control-Shield repository.

The Python sources embedded here are:
  * `features/test_sequences/sequence_builder.py` (StepType, SequenceStep,
    Sequence, SequenceBuilder and JSON (de)serialization),
  * `features/test_sequences/dut_profile.py` (DUTProfile),
  * `hardware/uart_manager.py` (UARTManager.send_command / send_task /
    send_sleep),
  * `features/test_sequences/qa_engine.py` (ExecutionStatus, StepResult,
    SequenceResult, QAEngine.execute_sequence and the per-step handlers).

Modelling conventions:
  * Python dict values appearing in step parameters are integers or strings,
    modelled by `Value`; a params dict is an association list preserving
    insertion order, exactly like a Python dict.
  * Wall-clock quantities (`duration` fields of results, timestamps,
    `time.sleep` calls) are not observable by any claim and are elided from
    the result records; whether a `time.sleep`/numeric conversion would have
    raised (wrong dynamic type, negative delay) is modelled, because it
    changes the observable success/message fields.
  * The serial line is modelled by the finite list of (already stripped)
    lines that arrive within `send_command`'s 2-second polling window, per
    command sent; exhausting the list is the timeout.
  * Python exceptions raised by dynamic typing are modelled by the branch
    the surrounding `try/except` would take; the exception text is replaced
    by a fixed descriptive string (the claims only need that the message is
    what the corresponding handler produces).
  * The engine writes commands to the transport; each handler returns,
    besides its `StepResult`, the list of command lines actually written,
    so that "nothing was sent" is a provable statement.
  * The cooperative stop/pause flags are set from another thread; the
    engine only ever observes them at fixed program points.  They are
    modelled by an oracle (`EngineEnv`) giving the value seen by each read,
    indexed by the loop-iteration counter.
  * The `while` loop of `execute_sequence` is modelled with explicit fuel;
    `none` means the run was still going after `fuel` iterations (the loop
    can genuinely diverge, e.g. with two interacting Repeat steps).
-/

/-- A Python value stored in a step-parameter dict (ints and strings are the
only value shapes the builder and the engine ever put there). -/
inductive Value where
  | vint (n : Int)
  | vstr (s : String)
deriving DecidableEq, Repr

/-- Python `d.get(k)` on a Python dict modelled as an insertion-ordered assoc list. -/
def pget (d : List (String × Value)) (k : String) : Option Value :=
  (d.find? (fun kv => kv.1 = k)).map (·.2)

/-- Python `d.get(k, default)`. -/
def pgetD (d : List (String × Value)) (k : String) (v : Value) : Value :=
  (pget d k).getD v

/-- Python truthiness of an optional parameter value (`None`, `0` and `""`
are falsy), used by `_execute_wake`'s `params.get('gpio') or ...`. -/
def truthy : Option Value → Bool
  | none => false
  | some (Value.vint n) => n != 0
  | some (Value.vstr s) => s != ""

/-- Python `d[k] = v` on a Python dict: overwrite in place if the key exists,
otherwise append. -/
def dictSet (d : List (String × Value)) (k : String) (v : Value) :
    List (String × Value) :=
  match d with
  | [] => [(k, v)]
  | kv :: rest =>
      if kv.1 = k then (k, v) :: rest else kv :: dictSet rest k v

/-- Python `s.startswith(p)`: `p`'s characters are a prefix of `s`'s. -/
def strStartsWith (s p : String) : Bool := p.data.isPrefixOf s.data

/-- Python `s.upper()`: upper-case every character. -/
def strUpper (s : String) : String := String.mk (s.data.map Char.toUpper)

/-- Python `StepType` enum of `sequence_builder.py`. -/
inductive StepType where
  | WAKE | TASK | SLEEP | WAIT | REPEAT | PASS | FAIL
deriving DecidableEq, Repr

/-- The `.value` string of each `StepType` member. -/
def StepType.value : StepType → String
  | .WAKE => "wake"
  | .TASK => "task"
  | .SLEEP => "sleep"
  | .WAIT => "wait"
  | .REPEAT => "repeat"
  | .PASS => "pass"
  | .FAIL => "fail"

/-- Python `StepType(s)` in Python: look a member up by value, raising (here:
`none`) on an unknown string. -/
def stepTypeOfString (s : String) : Option StepType :=
  if s = "wake" then some .WAKE
  else if s = "task" then some .TASK
  else if s = "sleep" then some .SLEEP
  else if s = "wait" then some .WAIT
  else if s = "repeat" then some .REPEAT
  else if s = "pass" then some .PASS
  else if s = "fail" then some .FAIL
  else none

/-- Python `SequenceStep` dataclass: a typed step plus its parameter dict. -/
structure SequenceStep where
  type : StepType
  params : List (String × Value)
deriving DecidableEq, Repr

/-- Python `SequenceStep.to_dict`: the Python dict `{'type': t.value, **params}`,
built with dict-update semantics starting from the singleton type entry. -/
def SequenceStep.to_dict (s : SequenceStep) : List (String × Value) :=
  s.params.foldl (fun d kv => dictSet d kv.1 kv.2) [("type", Value.vstr s.type.value)]

/-- Python `SequenceStep.from_dict`: read `data['type']` (raising, i.e. `none`, if
missing or not a known type string) and keep every other entry as params. -/
def SequenceStep.from_dict (d : List (String × Value)) : Option SequenceStep :=
  match pget d "type" with
  | some (Value.vstr ts) =>
      (stepTypeOfString ts).map
        (fun t => { type := t, params := d.filter (fun kv => kv.1 ≠ "type") })
  | _ => none

/-- Python `Sequence` dataclass: name, ordered steps, optional description. -/
structure Sequence where
  name : String
  steps : List SequenceStep
  description : String
deriving DecidableEq, Repr

/-- The dict produced by `Sequence.to_dict`; the source builds a literal
dict with exactly the keys `name`, `description`, `steps`, so it is
modelled as a record with those fields. -/
structure SeqDict where
  name : String
  description : String
  steps : List (List (String × Value))
deriving DecidableEq, Repr

/-- Python `Sequence.to_dict`. -/
def Sequence.to_dict (s : Sequence) : SeqDict :=
  { name := s.name, description := s.description,
    steps := s.steps.map SequenceStep.to_dict }

/-- Python `Sequence.from_dict`: rebuild every step (the Python list comprehension
raises, i.e. `none`, as soon as one step dict is invalid). -/
def Sequence.from_dict (d : SeqDict) : Option Sequence :=
  (d.steps.mapM SequenceStep.from_dict).map
    (fun steps => { name := d.name, steps := steps, description := d.description })

/-- Python `DUTProfile` dataclass of `dut_profile.py` (after `__post_init__`, the
`tasks` map is never `None`). -/
structure DUTProfile where
  name : String
  uart_port : String
  uart_baud : Int
  gpio_wake : Option Int
  gpio_reset : Option Int
  tasks : List (String × String)
deriving DecidableEq, Repr

/-- The dict produced by `dataclasses.asdict` on a `DUTProfile`: one entry
per field, modelled as a record with the same fields. -/
structure ProfileDict where
  name : String
  uart_port : String
  uart_baud : Int
  gpio_wake : Option Int
  gpio_reset : Option Int
  tasks : List (String × String)
deriving DecidableEq, Repr

/-- Python `DUTProfile.to_dict` (`asdict(self)`). -/
def DUTProfile.to_dict (p : DUTProfile) : ProfileDict :=
  { name := p.name, uart_port := p.uart_port, uart_baud := p.uart_baud,
    gpio_wake := p.gpio_wake, gpio_reset := p.gpio_reset, tasks := p.tasks }

/-- Python `DUTProfile.from_dict` (`cls(**data)`). -/
def DUTProfile.from_dict (d : ProfileDict) : DUTProfile :=
  { name := d.name, uart_port := d.uart_port, uart_baud := d.uart_baud,
    gpio_wake := d.gpio_wake, gpio_reset := d.gpio_reset, tasks := d.tasks }

/-- Python `SequenceBuilder.add_wake_step`. -/
def add_wake_step (gpio : Int) : SequenceStep :=
  { type := .WAKE, params := [("gpio", Value.vint gpio)] }

/-- Python `SequenceBuilder.add_task_step`. -/
def add_task_step (task_number : Int) (description : String) : SequenceStep :=
  { type := .TASK,
    params := [("number", Value.vint task_number), ("description", Value.vstr description)] }

/-- Python `SequenceBuilder.add_sleep_step` (the duration/unit pair is only added
when a duration is given; the mode is upper-cased at build time). -/
def add_sleep_step (mode : String) (duration : Option Int) (unit : String) :
    SequenceStep :=
  { type := .SLEEP,
    params := ("mode", Value.vstr (strUpper mode)) ::
      (match duration with
       | some d => [("duration", Value.vint d), ("unit", Value.vstr unit)]
       | none => []) }

/-- Python `SequenceBuilder.add_wait_step`. -/
def add_wait_step (duration : Int) (unit : String) : SequenceStep :=
  { type := .WAIT,
    params := [("duration", Value.vint duration), ("unit", Value.vstr unit)] }

/-- Python `SequenceBuilder.add_repeat_step`. -/
def add_repeat_step (count : Int) : SequenceStep :=
  { type := .REPEAT, params := [("count", Value.vint count)] }

/-- Python `SequenceBuilder.add_pass_step` (`{'message': m} if m else {}`). -/
def add_pass_step (message : String) : SequenceStep :=
  { type := .PASS,
    params := if message = "" then [] else [("message", Value.vstr message)] }

/-- Python `SequenceBuilder.add_fail_step` (`{'message': m} if m else {}`). -/
def add_fail_step (message : String) : SequenceStep :=
  { type := .FAIL,
    params := if message = "" then [] else [("message", Value.vstr message)] }

/-- A step produced by one of the `SequenceBuilder.add_*_step` methods. -/
def BuilderStep (s : SequenceStep) : Prop :=
  (∃ g, s = add_wake_step g) ∨
  (∃ n d, s = add_task_step n d) ∨
  (∃ m d u, s = add_sleep_step m d u) ∨
  (∃ d u, s = add_wait_step d u) ∨
  (∃ c, s = add_repeat_step c) ∨
  (∃ m, s = add_pass_step m) ∨
  (∃ m, s = add_fail_step m)

/-- The lines made available by the device in response to one command: the
model of the serial line behind `UARTManager.send_command`'s polling
window, per command sent. -/
def Transport : Type := String → List String

/-- The response-scanning loop of `UARTManager.send_command`
(`hardware/uart_manager.py`, lines 146-167): read lines one at a time,
discard heartbeat/debug noise, dispatch on `OK`/`ERR`, ignore everything
else; running out of lines inside the 2-second window is the timeout. -/
def send_command : List String → Bool × String
  | [] => (false, "Timeout waiting for response")
  | l :: rest =>
      if strStartsWith l "HEARTBEAT" || strStartsWith l "[" || strStartsWith l "CMD:" then
        send_command rest
      else if strStartsWith l "OK" then (true, l)
      else if strStartsWith l "ERR" then (false, l)
      else send_command rest

/-- A noise line per the reserved prefix set of the spec (§4.1, item 3). -/
def isNoise (l : String) : Bool :=
  strStartsWith l "HEARTBEAT" || strStartsWith l "[" || strStartsWith l "CMD:"

/-- Modelled from the spec claim C5 wording (spec-side function for the
refinement statement): discard the noise-prefixed lines, then the first
remaining line starting with `OK` gives `(true, line)`, the first starting
with `ERR` gives `(false, line)`, everything else is ignored, and if no
`OK`/`ERR` line arrives the result is the timeout pair. -/
def send_command_policy (lines : List String) : Bool × String :=
  match (lines.filter (fun l => !isNoise l)).find?
      (fun l => strStartsWith l "OK" || strStartsWith l "ERR") with
  | some l => (strStartsWith l "OK", l)
  | none => (false, "Timeout waiting for response")

/-- Sending one command line over the transport: the pair returned by
`send_command` plus the singleton list of lines actually written. -/
def sendCmd (tr : Transport) (cmd : String) : (Bool × String) × List String :=
  (send_command (tr cmd), [cmd])

/-- Python `UARTManager.send_task`: reject numbers outside 1-4 without writing
anything, otherwise send `TASK <n>`. -/
def send_task (tr : Transport) (task_number : Int) : (Bool × String) × List String :=
  if task_number < 1 ∨ task_number > 4 then
    ((false, "Task number must be 1-4"), [])
  else
    sendCmd tr ("TASK " ++ toString task_number)

/-- The `valid_modes` list of `UARTManager.send_sleep`. -/
def validModes : List String := ["ACTIVE", "LIGHT", "DEEP", "SHUTDOWN"]

/-- Python `UARTManager.send_sleep`: reject unknown modes without writing
anything, otherwise send `SLEEP <MODE>` upper-cased. -/
def send_sleep (tr : Transport) (mode : String) : (Bool × String) × List String :=
  if validModes.contains (strUpper mode) then
    sendCmd tr ("SLEEP " ++ strUpper mode)
  else
    ((false, "Invalid sleep mode. Must be one of: ACTIVE, LIGHT, DEEP, SHUTDOWN"), [])

/-- The UART manager as seen by the engine: whether `open(port, baud)`
succeeds, and the serial-line behaviour behind each sent command. -/
structure UARTModel where
  openOk : String → Int → Bool
  lines : Transport

/-- Python `ExecutionStatus` enum of `qa_engine.py`. -/
inductive ExecutionStatus where
  | IDLE | RUNNING | PAUSED | COMPLETED | FAILED | STOPPED
deriving DecidableEq, Repr

/-- Python `StepResult` (timing/timestamp/data fields elided: no claim observes
them). -/
structure StepResult where
  step : SequenceStep
  success : Bool
  message : String
deriving DecidableEq, Repr

/-- Python `SequenceResult` (timing fields elided likewise). -/
structure SequenceResult where
  sequence_name : String
  status : ExecutionStatus
  step_results : List StepResult
  pass_count : Nat
  fail_count : Nat
  error_message : String
deriving DecidableEq, Repr

/-- Python `SequenceResult.is_passed`. -/
def SequenceResult.is_passed (r : SequenceResult) : Bool :=
  r.status = ExecutionStatus.COMPLETED && r.fail_count = 0

/-- Python `response or default` where the response is a string: the
default is used exactly when the response is empty. -/
def orDefault (s d : String) : String := if s = "" then d else s

/-- Display of a parameter value inside an f-string. -/
def Value.toStr : Value → String
  | .vint n => toString n
  | .vstr s => s

/-- Python `QAEngine._execute_wake`: resolve the pin from the step params with
Python-truthiness fallback to the profile's `gpio_wake`; fail only when no
pin is available (the reference behaviour performs no actual GPIO drive). -/
def execWake (profile : DUTProfile) (step : SequenceStep) : StepResult × List String :=
  let g : Option Value :=
    if truthy (pget step.params "gpio") then pget step.params "gpio"
    else profile.gpio_wake.map Value.vint
  match g with
  | none => ({ step := step, success := false, message := "No GPIO specified for wake" }, [])
  | some v => ({ step := step, success := true, message := "Wake via GPIO " ++ v.toStr }, [])

/-- Python `QAEngine._execute_task`: missing number fails; a non-integer number
makes the `<` comparison raise (outside the handler's `try`), which the
dispatcher turns into a failed result; numbers outside 1-10 fail with the
engine's own message; otherwise delegate to `send_task`, mapping its pair
to (success, message) with the Python `or` default. -/
def execTask (tr : Transport) (step : SequenceStep) : StepResult × List String :=
  match pget step.params "number" with
  | none => ({ step := step, success := false, message := "Task number not specified" }, [])
  | some (Value.vstr _) =>
      ({ step := step, success := false,
         message := "Error executing step: unsupported comparison between int and str" }, [])
  | some (Value.vint n) =>
      if n < 1 ∨ n > 10 then
        ({ step := step, success := false,
           message := "Invalid task number: " ++ toString n ++ " (must be 1-10)" }, [])
      else
        let r := send_task tr n
        ({ step := step, success := r.1.1,
           message := orDefault r.1.2 ("Task " ++ toString n ++ " executed") }, r.2)

/-- Whether the post-command delay of `_execute_sleep` would complete
without raising: the duration must be a non-negative number and the unit a
string (`_convert_duration` calls `unit.lower()` and arithmetic on the
duration; `time.sleep` rejects negative values). -/
def sleepDelayOk (duration unit : Value) : Bool :=
  match duration, unit with
  | Value.vint d, Value.vstr _ => decide (0 ≤ d)
  | _, _ => false

/-- The successful-send core of `QAEngine._execute_sleep`: send the mode,
record (success, message), then, when a duration is present, run the local
delay — an exception there overwrites the message (`Sleep command failed:`)
but, in the source, leaves `success` as already set. -/
def execSleepCore (tr : Transport) (step : SequenceStep) (mode : String) :
    StepResult × List String :=
  let r := send_sleep tr mode
  let msg := orDefault r.1.2 ("Sleep mode " ++ mode ++ " commanded")
  let msg2 :=
    match pget step.params "duration" with
    | none => msg
    | some d =>
        if sleepDelayOk d (pgetD step.params "unit" (Value.vstr "seconds")) then msg
        else "Sleep command failed: invalid duration"
  ({ step := step, success := r.1.1, message := msg2 }, r.2)

/-- Python `QAEngine._execute_sleep`: the mode defaults to `DEEP` when absent; a
non-string mode makes `send_sleep`'s `mode.upper()` raise, caught by the
handler as a failed result with nothing written. -/
def execSleep (tr : Transport) (step : SequenceStep) : StepResult × List String :=
  match pget step.params "mode" with
  | some (Value.vint _) =>
      ({ step := step, success := false,
         message := "Sleep command failed: mode is not a string" }, [])
  | some (Value.vstr m) => execSleepCore tr step m
  | none => execSleepCore tr step "DEEP"

/-- Python `QAEngine._execute_wait`: always succeeds after the local delay; a
non-numeric duration, non-string unit or negative delay raises outside any
handler `try`, so the dispatcher reports a failed `Error executing step`
result. -/
def execWait (step : SequenceStep) : StepResult × List String :=
  let d := pgetD step.params "duration" (Value.vint 0)
  let u := pgetD step.params "unit" (Value.vstr "ms")
  match d, u with
  | Value.vint n, Value.vstr us =>
      if 0 ≤ n then
        ({ step := step, success := true,
           message := "Waited " ++ toString n ++ " " ++ us }, [])
      else
        ({ step := step, success := false,
           message := "Error executing step: sleep length must be non-negative" }, [])
  | _, _ =>
      ({ step := step, success := false,
         message := "Error executing step: invalid wait parameters" }, [])

/-- Python `QAEngine._execute_repeat`: always succeeds; all effect is loop control. -/
def execRepeat (step : SequenceStep) : StepResult × List String :=
  ({ step := step, success := true, message := "Repeat step" }, [])

/-- Python `QAEngine._execute_pass`. -/
def execPass (step : SequenceStep) : StepResult × List String :=
  ({ step := step, success := true,
     message := (pgetD step.params "message" (Value.vstr "Pass")).toStr }, [])

/-- Python `QAEngine._execute_fail`. -/
def execFail (step : SequenceStep) : StepResult × List String :=
  ({ step := step, success := false,
     message := (pgetD step.params "message" (Value.vstr "Fail")).toStr }, [])

/-- Python `QAEngine._execute_step`: dispatch on the step type (the enum is
closed, so the source's unknown-type branch is unreachable). -/
def execute_step (tr : Transport) (profile : DUTProfile) (step : SequenceStep) :
    StepResult × List String :=
  match step.type with
  | .WAKE => execWake profile step
  | .TASK => execTask tr step
  | .SLEEP => execSleep tr step
  | .WAIT => execWait step
  | .REPEAT => execRepeat step
  | .PASS => execPass step
  | .FAIL => execFail step

/-- The values of the cooperative stop/pause flags as observed by the
engine's reads, indexed by the outer-loop iteration counter: `stopAtTop t`
is the `stop_requested` value read by the `while` condition of iteration
`t` (also used by the finalisation read when the loop exits there),
`pauseAt t` the `pause_requested` value read at the top of the body, and
`stopInPause t` the `stop_requested` value seen when the inner pause-wait
loop of iteration `t` exits. -/
structure EngineEnv where
  stopAtTop : Nat → Bool
  pauseAt : Nat → Bool
  stopInPause : Nat → Bool

/-- The environment of a run during which neither `stop()` nor `pause()`
is ever called. -/
def quietEnv : EngineEnv :=
  { stopAtTop := fun _ => false, pauseAt := fun _ => false,
    stopInPause := fun _ => false }

/-- The mutable engine/run state carried by `execute_sequence`'s loop:
`step_index` and `repeat_count` live on the engine, the rest on the
in-progress `SequenceResult`. -/
structure RunState where
  step_index : Nat
  repeat_count : Int
  status : ExecutionStatus
  step_results : List StepResult
  pass_count : Nat
  fail_count : Nat
  error_message : String
deriving DecidableEq, Repr

/-- The state at the top of the loop (`execute_sequence` resets the
indices and sets the status to RUNNING before entering). -/
def initState : RunState :=
  { step_index := 0, repeat_count := 0, status := ExecutionStatus.RUNNING,
    step_results := [], pass_count := 0, fail_count := 0, error_message := "" }

/-- How the loop of `execute_sequence` ended: `normal t` is an exit by the
`while` condition or by the first-failure `break` at iteration `t`;
`exc` is an exception escaping the loop (only possible point in this
model: a non-integer `count` parameter making `repeat_count < count`
raise), caught by the outer `except` with the given text. -/
inductive LoopExit where
  | normal (t : Nat)
  | exc (msg : String)
deriving DecidableEq, Repr

/-- The exception text produced when `repeat_count < count` compares an
int with a string. -/
def countTypeErr : String := "unsupported comparison between int and str"

/-- The pause-wait block at the top of the loop body: on a pause request
the status becomes PAUSED and the engine busy-waits; when the wait ends
because of a stop request the status stays PAUSED, otherwise it returns to
RUNNING.  Only the status changes; the body then continues into the step
execution either way. -/
def pauseBlock (env : EngineEnv) (t : Nat) (st : RunState) : RunState :=
  if env.pauseAt t then
    if env.stopInPause t then { st with status := ExecutionStatus.PAUSED }
    else { st with status := ExecutionStatus.RUNNING }
  else st

/-- The step loop of `QAEngine.execute_sequence` (qa_engine.py lines
137-168), with explicit fuel.  Each iteration: exit if the index ran off
the end or stop was requested; run the pause-wait block; execute the
current step and append its result; on failure count it, mark FAILED,
record the message and break; on success count it, advance the index, and
apply the repeat handling (which advances the index a second time when the
repeat is complete). -/
def execLoop (tr : Transport) (profile : DUTProfile) (steps : List SequenceStep)
    (env : EngineEnv) : Nat → Nat → RunState → Option (RunState × LoopExit)
  | 0, _, _ => none
  | Nat.succ fuel, t, st =>
      if h : st.step_index < steps.length ∧ env.stopAtTop t = false then
        let st1 := pauseBlock env t st
        let step := steps.get ⟨st.step_index, h.1⟩
        let sr := (execute_step tr profile step).1
        let st2 := { st1 with step_results := st1.step_results ++ [sr] }
        if sr.success then
          let st3 := { st2 with pass_count := st2.pass_count + 1,
                                step_index := st2.step_index + 1 }
          if step.type = StepType.REPEAT then
            match pgetD step.params "count" (Value.vint 1) with
            | Value.vint count =>
                if st3.repeat_count < count then
                  execLoop tr profile steps env fuel (t + 1)
                    { st3 with repeat_count := st3.repeat_count + 1, step_index := 0 }
                else
                  execLoop tr profile steps env fuel (t + 1)
                    { st3 with repeat_count := 0, step_index := st3.step_index + 1 }
            | Value.vstr _ =>
                some ({ st3 with status := ExecutionStatus.FAILED,
                                 error_message := countTypeErr },
                      LoopExit.exc countTypeErr)
          else
            execLoop tr profile steps env fuel (t + 1) st3
        else
          some ({ st2 with fail_count := st2.fail_count + 1,
                           status := ExecutionStatus.FAILED,
                           error_message := sr.message },
                LoopExit.normal t)
      else
        some (st, LoopExit.normal t)

/-- The open-failure `SequenceResult` built at qa_engine.py lines 119-124. -/
def openFailResult (seq : Sequence) (profile : DUTProfile) : SequenceResult :=
  { sequence_name := seq.name, status := ExecutionStatus.FAILED,
    step_results := [], pass_count := 0, fail_count := 0,
    error_message := "Failed to open UART port " ++ profile.uart_port ++
      ". Check permissions and that no other program is using it." }

/-- Python `QAEngine.execute_sequence`, returning the `SequenceResult` together
with the engine's final internal state (needed to state properties of
`repeat_count` and `step_index`); `none` when the loop did not end within
`fuel` iterations.  Finalisation: an escaped exception forces FAILED; a
loop that ended while the status was still RUNNING and stop was not
requested becomes COMPLETED; otherwise the status is returned as is. -/
def execute_sequence_full (uart : UARTModel) (seq : Sequence)
    (profile : DUTProfile) (env : EngineEnv) (fuel : Nat) :
    Option (SequenceResult × RunState) :=
  if uart.openOk profile.uart_port profile.uart_baud = false then
    some (openFailResult seq profile, initState)
  else
    match execLoop uart.lines profile seq.steps env fuel 0 initState with
    | none => none
    | some (st, ex) =>
        let finalStatus :=
          match ex with
          | LoopExit.exc _ => ExecutionStatus.FAILED
          | LoopExit.normal tExit =>
              if env.stopAtTop tExit = false ∧ st.status = ExecutionStatus.RUNNING
              then ExecutionStatus.COMPLETED else st.status
        some ({ sequence_name := seq.name, status := finalStatus,
                step_results := st.step_results, pass_count := st.pass_count,
                fail_count := st.fail_count, error_message := st.error_message },
              { st with status := finalStatus })

/-- Python `QAEngine.execute_sequence` as the caller sees it: just the result. -/
def execute_sequence (uart : UARTModel) (seq : Sequence) (profile : DUTProfile)
    (env : EngineEnv) (fuel : Nat) : Option SequenceResult :=
  (execute_sequence_full uart seq profile env fuel).map Prod.fst

/-- A UART manager whose `open` always succeeds and whose device answers
every command with a single `OK` line. -/
def uartAlwaysOk : UARTModel :=
  { openOk := fun _ _ => true, lines := fun _ => ["OK"] }

/-- The `mock` DUT profile auto-created by `DUTProfileManager`. -/
def mockProfile : DUTProfile :=
  { name := "mock", uart_port := "/dev/ttyUSB0", uart_baud := 115200,
    gpio_wake := none, gpio_reset := none,
    tasks := [("1", "Task 1"), ("2", "Task 2"), ("3", "Task 3"),
              ("4", "Task 4"), ("5", "Task 5")] }

/-- A UART manager whose `open` always fails (missing device, permissions). -/
def uartNeverOpens : UARTModel :=
  { openOk := fun _ _ => false, lines := fun _ => [] }

/-- An environment in which `stop()` was called right after the run began,
so every read of `stop_requested` observes `true` while `pause()` is never
called. -/
def stopNowEnv : EngineEnv :=
  { stopAtTop := fun _ => true, pauseAt := fun _ => false,
    stopInPause := fun _ => false }

/-- A bare Pass step. -/
def passPlain : SequenceStep := { type := .PASS, params := [] }

/-- A bare Fail step. -/
def failPlain : SequenceStep := { type := .FAIL, params := [] }

/-- A Pass step labelled "a". -/
def passA : SequenceStep := { type := .PASS, params := [("message", Value.vstr "a")] }

/-- A Pass step labelled "b". -/
def passB : SequenceStep := { type := .PASS, params := [("message", Value.vstr "b")] }

/-- A `Repeat` step with `count = 1`. -/
def repeatOnce : SequenceStep := { type := .REPEAT, params := [("count", Value.vint 1)] }

/-- A one-step sequence used to exercise a stopped run. -/
def seqOnePass : Sequence := { name := "one-pass", steps := [passPlain], description := "" }

/-- Python `[Pass "a", Repeat(1), Pass "b"]`: a Repeat with at least one step
after it. -/
def seqRepeatThenStep : Sequence :=
  { name := "repeat-then-step", steps := [passA, repeatOnce, passB], description := "" }

/-- Python `[Repeat(1), Fail, Pass]`: a 3-step sequence whose first step succeeds
(Repeat always does) and whose second step fails whenever executed. -/
def seqRepeatFailPass : Sequence :=
  { name := "repeat-fail-pass", steps := [repeatOnce, failPlain, passPlain], description := "" }

/-- Python `Task(1)` step. -/
def taskOne : SequenceStep := { type := .TASK, params := [("number", Value.vint 1)] }

/-- Python `Repeat(count=2)` step. -/
def repeatTwice : SequenceStep := { type := .REPEAT, params := [("count", Value.vint 2)] }

/-- The `[Task(1), Repeat(count=2)]` sequence of spec §8 property 6. -/
def seqTaskRepeat : Sequence :=
  { name := "task-repeat", steps := [taskOne, repeatTwice], description := "" }

/-- A sequence holding one step of every builder kind. -/
def builderDemoSeq : Sequence :=
  { name := "demo", description := "all builder steps",
    steps := [add_wake_step 5, add_task_step 2 "blink", add_sleep_step "deep" (some 3) "seconds",
              add_wait_step 500 "ms", add_repeat_step 3, add_pass_step "", add_fail_step "boom"] }

/-- The result of running `seqOnePass` quietly (used to instantiate the
counting invariant). -/
def resultW9 : SequenceResult :=
  { sequence_name := "one-pass", status := ExecutionStatus.COMPLETED,
    step_results := [{ step := passPlain, success := true, message := "Pass" }],
    pass_count := 1, fail_count := 0, error_message := "" }

/-- The engine state after running `seqOnePass` quietly. -/
def stateW9 : RunState :=
  { step_index := 1, repeat_count := 0, status := ExecutionStatus.COMPLETED,
    step_results := [{ step := passPlain, success := true, message := "Pass" }],
    pass_count := 1, fail_count := 0, error_message := "" }

/-- A nonempty string stays nonempty after appending. -/
theorem append_ne_nil_of_left (s t : String) (h : s ≠ "") : (s ++ t) ≠ "" := by
  intro he
  have h2 := congrArg String.length he
  rw [String.length_append, show ("" : String).length = 0 from rfl] at h2
  have h3 : s.length = 0 := by omega
  apply h
  cases s with
  | mk l =>
      cases l with
      | nil => rfl
      | cons a as => simp [String.length] at h3

/-- The loop returns the state unchanged when the index has run off the
end of the sequence or a stop request is observed at the top. -/
theorem execLoop_exit (tr : Transport) (profile : DUTProfile)
    (steps : List SequenceStep) (env : EngineEnv) (fuel t : Nat) (st : RunState)
    (h : ¬(st.step_index < steps.length ∧ env.stopAtTop t = false)) :
    execLoop tr profile steps env (fuel + 1) t st = some (st, LoopExit.normal t) := by
  simp only [execLoop, dif_neg h]

/-- One iteration of the loop over a successful non-Repeat step, with no
pause pending: append the result, count the pass, advance the index. -/
theorem execLoop_step_success (tr : Transport) (profile : DUTProfile)
    (steps : List SequenceStep) (env : EngineEnv) (fuel t : Nat) (st : RunState)
    (hlt : st.step_index < steps.length) (hstop : env.stopAtTop t = false)
    (hpause : env.pauseAt t = false)
    (hsucc : (execute_step tr profile (steps.get ⟨st.step_index, hlt⟩)).1.success = true)
    (hnr : (steps.get ⟨st.step_index, hlt⟩).type ≠ StepType.REPEAT) :
    execLoop tr profile steps env (fuel + 1) t st =
      execLoop tr profile steps env fuel (t + 1)
        { st with
            step_results :=
              st.step_results ++ [(execute_step tr profile (steps.get ⟨st.step_index, hlt⟩)).1],
            pass_count := st.pass_count + 1,
            step_index := st.step_index + 1 } := by
  have hc : st.step_index < steps.length ∧ env.stopAtTop t = false := ⟨hlt, hstop⟩
  simp only [execLoop, dif_pos hc, pauseBlock, hpause, if_false, hsucc, if_true, if_neg hnr,
    Bool.false_eq_true]

/-- One iteration of the loop over a failing step, with no pause pending:
append the result, count the failure, mark FAILED and break. -/
theorem execLoop_step_failure (tr : Transport) (profile : DUTProfile)
    (steps : List SequenceStep) (env : EngineEnv) (fuel t : Nat) (st : RunState)
    (hlt : st.step_index < steps.length) (hstop : env.stopAtTop t = false)
    (hpause : env.pauseAt t = false)
    (hfail : (execute_step tr profile (steps.get ⟨st.step_index, hlt⟩)).1.success = false) :
    execLoop tr profile steps env (fuel + 1) t st =
      some ({ st with
                step_results :=
                  st.step_results ++ [(execute_step tr profile (steps.get ⟨st.step_index, hlt⟩)).1],
                fail_count := st.fail_count + 1,
                status := ExecutionStatus.FAILED,
                error_message := (execute_step tr profile (steps.get ⟨st.step_index, hlt⟩)).1.message },
            LoopExit.normal t) := by
  have hc : st.step_index < steps.length ∧ env.stopAtTop t = false := ⟨hlt, hstop⟩
  simp only [execLoop, dif_pos hc, pauseBlock, hpause, if_false, hfail, Bool.false_eq_true]

/-- The pause-wait block only touches the status field. -/
@[simp] theorem pauseBlock_step_index (env : EngineEnv) (t : Nat) (st : RunState) :
    (pauseBlock env t st).step_index = st.step_index := by
  unfold pauseBlock; split <;> [skip; rfl]; split <;> rfl

/-- The pause-wait block only touches the status field. -/
@[simp] theorem pauseBlock_repeat_count (env : EngineEnv) (t : Nat) (st : RunState) :
    (pauseBlock env t st).repeat_count = st.repeat_count := by
  unfold pauseBlock; split <;> [skip; rfl]; split <;> rfl

/-- The pause-wait block only touches the status field. -/
@[simp] theorem pauseBlock_step_results (env : EngineEnv) (t : Nat) (st : RunState) :
    (pauseBlock env t st).step_results = st.step_results := by
  unfold pauseBlock; split <;> [skip; rfl]; split <;> rfl

/-- The pause-wait block only touches the status field. -/
@[simp] theorem pauseBlock_pass_count (env : EngineEnv) (t : Nat) (st : RunState) :
    (pauseBlock env t st).pass_count = st.pass_count := by
  unfold pauseBlock; split <;> [skip; rfl]; split <;> rfl

/-- The pause-wait block only touches the status field. -/
@[simp] theorem pauseBlock_fail_count (env : EngineEnv) (t : Nat) (st : RunState) :
    (pauseBlock env t st).fail_count = st.fail_count := by
  unfold pauseBlock; split <;> [skip; rfl]; split <;> rfl

/-- The pause-wait block only touches the status field. -/
@[simp] theorem pauseBlock_error_message (env : EngineEnv) (t : Nat) (st : RunState) :
    (pauseBlock env t st).error_message = st.error_message := by
  unfold pauseBlock; split <;> [skip; rfl]; split <;> rfl

/-- Loop invariant: every appended `StepResult` is counted exactly once,
and the failure counter is only ever bumped by the breaking iteration, so
a loop that ends (by any of its exits) reports consistent counts with at
most one failure. -/
theorem execLoop_counts (tr : Transport) (profile : DUTProfile)
    (steps : List SequenceStep) (env : EngineEnv) :
    ∀ fuel t st stFin ex,
      st.pass_count + st.fail_count = st.step_results.length →
      st.fail_count = 0 →
      execLoop tr profile steps env fuel t st = some (stFin, ex) →
      stFin.pass_count + stFin.fail_count = stFin.step_results.length ∧
        stFin.fail_count ≤ 1 := by
  intro fuel
  induction fuel with
  | zero =>
      intro t st stFin ex hsum hfail h
      simp [execLoop] at h
  | succ fuel ih =>
      intro t st stFin ex hsum hfail h
      simp only [execLoop] at h
      split at h
      case isFalse =>
        simp only [Option.some.injEq, Prod.mk.injEq] at h
        obtain ⟨rfl, -⟩ := h
        exact ⟨hsum, by omega⟩
      case isTrue hc =>
        split at h
        case isTrue hsucc =>
          split at h
          case isTrue hrep =>
            split at h
            case h_1 count heq =>
              split at h
              case isTrue hlt2 =>
                refine ih (t + 1) _ stFin ex ?_ ?_ h <;>
                  simp [List.length_append] <;> omega
              case isFalse hlt2 =>
                refine ih (t + 1) _ stFin ex ?_ ?_ h <;>
                  simp [List.length_append] <;> omega
            case h_2 s heq =>
              simp only [Option.some.injEq, Prod.mk.injEq] at h
              obtain ⟨rfl, -⟩ := h
              constructor <;> simp [List.length_append] <;> omega
          case isFalse hrep =>
            refine ih (t + 1) _ stFin ex ?_ ?_ h <;>
              simp [List.length_append] <;> omega
        case isFalse hsucc =>
          simp only [Option.some.injEq, Prod.mk.injEq] at h
          obtain ⟨rfl, -⟩ := h
          constructor <;> simp [List.length_append] <;> omega

/-- C1 (code evaluated at the claim's failing input): with `stop()` called
while the run is RUNNING — every read of the stop flag observes `true`,
starting at the first top-of-loop check — `execute_sequence` returns a
`SequenceResult` whose status is still RUNNING, not STOPPED (no step
having failed, and no `StepResult` appended).  `ExecutionStatus.STOPPED`
is never assigned anywhere in the engine, so the claimed terminal STOPPED
status is unreachable. -/
theorem stop_request_returns_running_status :
    execute_sequence uartAlwaysOk seqOnePass mockProfile stopNowEnv 5 =
      some { sequence_name := "one-pass", status := ExecutionStatus.RUNNING,
             step_results := [], pass_count := 0, fail_count := 0, error_message := "" } ∧
    (execute_sequence uartAlwaysOk seqOnePass mockProfile stopNowEnv 5).map
        SequenceResult.status ≠ some ExecutionStatus.STOPPED := by
  decide

/-- C2 (code evaluated at the claim's failing input): running
`[Pass "a", Repeat(count=1), Pass "b"]` to completion appends the results
`a, Repeat, a, Repeat` and ends with `step_index = 3`: after the Repeat
step's last repetition the index is advanced twice, so the step
immediately after the Repeat (the `Pass "b"` at index 2) never executes,
although the claim says it is the next step executed. -/
theorem repeat_completion_skips_following_step :
    (execute_sequence_full uartAlwaysOk seqRepeatThenStep mockProfile quietEnv 10).map
        (fun pr => (pr.1.status, pr.1.step_results.map (fun sr => sr.message),
                    pr.2.step_index)) =
      some (ExecutionStatus.COMPLETED, ["a", "Repeat step", "a", "Repeat step"], 3) := by
  decide

/-- C6: `[Task(1), Repeat(count=2)]` against a transport that always
answers `OK` yields exactly 6 StepResults in the order
`[Task, Repeat, Task, Repeat, Task, Repeat]`, the engine's `repeat_count`
is back to 0 when the run ends, and the final status is COMPLETED. -/
theorem task_repeat_sequence_six_results :
    (execute_sequence_full uartAlwaysOk seqTaskRepeat mockProfile quietEnv 10).map
        (fun pr => (pr.1.status, pr.1.step_results.map (fun sr => sr.step.type),
                    pr.2.repeat_count)) =
      some (ExecutionStatus.COMPLETED,
            [StepType.TASK, StepType.REPEAT, StepType.TASK, StepType.REPEAT,
             StepType.TASK, StepType.REPEAT], 0) := by
  decide

/-- C8: when opening the UART connection with the profile's port and baud
fails, `execute_sequence` returns immediately with a FAILED result whose
error message is non-empty and whose step list is empty — no step is
attempted (this holds for every sequence, profile, flag environment and
fuel). -/
theorem open_failure_returns_failed_immediately (uart : UARTModel) (seq : Sequence)
    (profile : DUTProfile) (env : EngineEnv) (fuel : Nat)
    (h : uart.openOk profile.uart_port profile.uart_baud = false) :
    execute_sequence uart seq profile env fuel = some (openFailResult seq profile) ∧
    (openFailResult seq profile).status = ExecutionStatus.FAILED ∧
    (openFailResult seq profile).error_message ≠ "" ∧
    (openFailResult seq profile).step_results = [] := by
  refine ⟨?_, rfl, ?_, rfl⟩
  · unfold execute_sequence execute_sequence_full
    rw [if_pos h]
    rfl
  · show ("Failed to open UART port " ++ profile.uart_port ++
      ". Check permissions and that no other program is using it.") ≠ ""
    exact append_ne_nil_of_left _ _ (append_ne_nil_of_left _ _ (by decide))

/-- Witness for C8 at a concrete never-opening UART manager. -/
theorem open_failure_returns_failed_immediately_witness :
    execute_sequence uartNeverOpens seqOnePass mockProfile quietEnv 5 =
        some (openFailResult seqOnePass mockProfile) ∧
    (openFailResult seqOnePass mockProfile).status = ExecutionStatus.FAILED ∧
    (openFailResult seqOnePass mockProfile).error_message ≠ "" ∧
    (openFailResult seqOnePass mockProfile).step_results = [] :=
  open_failure_returns_failed_immediately uartNeverOpens seqOnePass mockProfile quietEnv 5 rfl

/-- The counting invariant carried from the loop to the returned result. -/
theorem execute_sequence_full_counts (uart : UARTModel) (seq : Sequence)
    (profile : DUTProfile) (env : EngineEnv) (fuel : Nat) (r : SequenceResult)
    (st : RunState)
    (h : execute_sequence_full uart seq profile env fuel = some (r, st)) :
    r.pass_count + r.fail_count = r.step_results.length ∧ r.fail_count ≤ 1 := by
  unfold execute_sequence_full at h
  split at h
  · simp only [Option.some.injEq, Prod.mk.injEq] at h
    obtain ⟨rfl, -⟩ := h
    simp [openFailResult]
  · cases heq : execLoop uart.lines profile seq.steps env fuel 0 initState with
    | none => rw [heq] at h; simp at h
    | some p =>
        obtain ⟨stF, ex⟩ := p
        rw [heq] at h
        have hinv := execLoop_counts uart.lines profile seq.steps env fuel 0 initState stF ex
          (by simp [initState]) (by simp [initState]) heq
        simp only [Option.some.injEq, Prod.mk.injEq] at h
        obtain ⟨rfl, -⟩ := h
        simpa using hinv

/-- C9 (implicit invariant): every `SequenceResult` returned by
`execute_sequence` satisfies `pass_count + fail_count = |step_results|`
and `fail_count ≤ 1`: each appended `StepResult` is counted exactly once,
the loop stops at the first failure, and the open-failure result has zero
counts and no steps. -/
theorem sequence_result_counts_consistent (uart : UARTModel) (seq : Sequence)
    (profile : DUTProfile) (env : EngineEnv) (fuel : Nat) (r : SequenceResult)
    (h : execute_sequence uart seq profile env fuel = some r) :
    r.pass_count + r.fail_count = r.step_results.length ∧ r.fail_count ≤ 1 := by
  unfold execute_sequence at h
  cases hfull : execute_sequence_full uart seq profile env fuel with
  | none => rw [hfull] at h; simp at h
  | some p =>
      rw [hfull] at h
      simp only [Option.map_some', Option.some.injEq] at h
      subst h
      exact execute_sequence_full_counts uart seq profile env fuel p.1 p.2 (by rw [hfull])

/-- Witness for C9 on a concrete completed run. -/
theorem sequence_result_counts_consistent_witness :
    resultW9.pass_count + resultW9.fail_count = resultW9.step_results.length ∧
      resultW9.fail_count ≤ 1 :=
  sequence_result_counts_consistent uartAlwaysOk seqOnePass mockProfile quietEnv 5 resultW9
    (by decide)

/-- C3: executing a Task step whose params carry a `number` outside 1-4
yields a failed StepResult with a non-empty message, and nothing is
written to the UART transport: numbers outside 1-10 are rejected by the
engine before any UART call, and numbers 5-10 pass the engine check but
are rejected inside `send_task` before `send_command` is reached. -/
theorem task_out_of_range_fails_without_send (tr : Transport)
    (profile : DUTProfile) (params : List (String × Value)) (n : Int)
    (hn : pget params "number" = some (Value.vint n)) (hr : n < 1 ∨ 4 < n) :
    (execute_step tr profile { type := StepType.TASK, params := params }).1.success = false ∧
    (execute_step tr profile { type := StepType.TASK, params := params }).1.message ≠ "" ∧
    (execute_step tr profile { type := StepType.TASK, params := params }).2 = [] := by
  have hrange : (n < 1 ∨ n > 10) ∨ (¬(n < 1 ∨ n > 10) ∧ 4 < n) := by omega
  rcases hrange with hcond | ⟨hcond, h4⟩
  · simp only [execute_step, execTask, hn, if_pos hcond]
    refine ⟨trivial, ?_, trivial⟩
    exact append_ne_nil_of_left _ _ (append_ne_nil_of_left _ _ (by decide))
  · have hc4 : n < 1 ∨ n > 4 := Or.inr h4
    simp only [execute_step, execTask, hn, if_neg hcond, send_task, if_pos hc4]
    refine ⟨trivial, ?_, trivial⟩
    show orDefault "Task number must be 1-4" ("Task " ++ toString n ++ " executed") ≠ ""
    unfold orDefault
    rw [if_neg (by decide)]
    decide

/-- Witness for C3 at `number = 5` (inside the engine's 1-10 window but
outside the transport's 1-4 window). -/
theorem task_out_of_range_fails_without_send_witness :
    pget [("number", Value.vint 5)] "number" = some (Value.vint 5) ∧
    ((execute_step uartAlwaysOk.lines mockProfile
        { type := StepType.TASK, params := [("number", Value.vint 5)] }).1.success = false ∧
     (execute_step uartAlwaysOk.lines mockProfile
        { type := StepType.TASK, params := [("number", Value.vint 5)] }).1.message ≠ "" ∧
     (execute_step uartAlwaysOk.lines mockProfile
        { type := StepType.TASK, params := [("number", Value.vint 5)] }).2 = []) :=
  ⟨by decide,
   task_out_of_range_fails_without_send uartAlwaysOk.lines mockProfile
     [("number", Value.vint 5)] 5 (by decide) (by omega)⟩

/-- C10: executing a Sleep step whose params carry no `mode` key does not
fail validation: the engine substitutes `DEEP`, writes exactly
`SLEEP DEEP` to the transport, and the step's success is exactly the
transport's verdict on that command (true whenever it answers `OK`). -/
theorem sleep_missing_mode_defaults_deep (tr : Transport) (profile : DUTProfile)
    (params : List (String × Value)) (h : pget params "mode" = none) :
    (execute_step tr profile { type := StepType.SLEEP, params := params }).2 = ["SLEEP DEEP"] ∧
    (execute_step tr profile { type := StepType.SLEEP, params := params }).1.success =
      (send_command (tr "SLEEP DEEP")).1 := by
  simp only [execute_step, execSleep, h]
  exact ⟨rfl, rfl⟩

/-- Witness for C10: no `mode` key, a transport answering `OK`. -/
theorem sleep_missing_mode_defaults_deep_witness :
    (execute_step uartAlwaysOk.lines mockProfile
        { type := StepType.SLEEP, params := [("duration", Value.vint 2)] }).2 = ["SLEEP DEEP"] ∧
    (execute_step uartAlwaysOk.lines mockProfile
        { type := StepType.SLEEP, params := [("duration", Value.vint 2)] }).1.success =
      (send_command (uartAlwaysOk.lines "SLEEP DEEP")).1 :=
  sleep_missing_mode_defaults_deep uartAlwaysOk.lines mockProfile
    [("duration", Value.vint 2)] (by decide)

/-- C4, counterexample to the claim as stated: in the 3-step sequence
`[Repeat(1), Fail, Pass]` step 1 succeeds (Repeat always does) and step 2
fails whenever executed, yet the run produces 3 StepResults, status
COMPLETED and `fail_count = 0` — the Repeat loop-control re-runs index 0
and then skips over index 1, so the failing step never executes. -/
theorem first_failure_claim_counterexample :
    (execute_step uartAlwaysOk.lines mockProfile repeatOnce).1.success = true ∧
    (execute_step uartAlwaysOk.lines mockProfile failPlain).1.success = false ∧
    (execute_sequence uartAlwaysOk seqRepeatFailPass mockProfile quietEnv 10).map
        (fun r => (r.status, r.step_results.length, r.pass_count, r.fail_count)) =
      some (ExecutionStatus.COMPLETED, 3, 3, 0) := by
  decide

/-- C4 as amended: for every 3-step sequence whose FIRST step is not a
Repeat step, if step 1 succeeds and step 2 fails then the run produces
exactly the two results (step 1 success, step 2 failure), status FAILED,
`pass_count = 1`, `fail_count = 1`, the error message of the failing step,
and step 3 never executes. -/
theorem first_failure_halts_after_two_results (uart : UARTModel)
    (profile : DUTProfile) (nm ds : String) (s1 s2 s3 : SequenceStep)
    (hopen : uart.openOk profile.uart_port profile.uart_baud = true)
    (h1 : s1.type ≠ StepType.REPEAT)
    (hs : (execute_step uart.lines profile s1).1.success = true)
    (hf : (execute_step uart.lines profile s2).1.success = false) :
    execute_sequence uart { name := nm, steps := [s1, s2, s3], description := ds }
        profile quietEnv 4 =
      some { sequence_name := nm, status := ExecutionStatus.FAILED,
             step_results := [(execute_step uart.lines profile s1).1,
                              (execute_step uart.lines profile s2).1],
             pass_count := 1, fail_count := 1,
             error_message := (execute_step uart.lines profile s2).1.message } := by
  have h01 : execLoop uart.lines profile [s1, s2, s3] quietEnv 4 0 initState =
      execLoop uart.lines profile [s1, s2, s3] quietEnv 3 1
        { step_index := 1, repeat_count := 0, status := ExecutionStatus.RUNNING,
          step_results := [(execute_step uart.lines profile s1).1],
          pass_count := 1, fail_count := 0, error_message := "" } :=
    execLoop_step_success uart.lines profile [s1, s2, s3] quietEnv 3 0 initState
      (by simp [initState]) rfl rfl hs h1
  have h12 : execLoop uart.lines profile [s1, s2, s3] quietEnv 3 1
        { step_index := 1, repeat_count := 0, status := ExecutionStatus.RUNNING,
          step_results := [(execute_step uart.lines profile s1).1],
          pass_count := 1, fail_count := 0, error_message := "" } =
      some ({ step_index := 1, repeat_count := 0, status := ExecutionStatus.FAILED,
              step_results := [(execute_step uart.lines profile s1).1,
                               (execute_step uart.lines profile s2).1],
              pass_count := 1, fail_count := 1,
              error_message := (execute_step uart.lines profile s2).1.message },
            LoopExit.normal 1) :=
    execLoop_step_failure uart.lines profile [s1, s2, s3] quietEnv 2 1
      { step_index := 1, repeat_count := 0, status := ExecutionStatus.RUNNING,
        step_results := [(execute_step uart.lines profile s1).1],
        pass_count := 1, fail_count := 0, error_message := "" }
      (by simp) rfl rfl hf
  unfold execute_sequence execute_sequence_full
  rw [if_neg (by simp [hopen]), h01, h12]
  rfl

/-- Witness for the amended C4 on a concrete `[Pass, Fail, Pass]` run. -/
theorem first_failure_halts_after_two_results_witness :
    execute_sequence uartAlwaysOk
        { name := "w4", steps := [passPlain, failPlain, passPlain], description := "" }
        mockProfile quietEnv 4 =
      some { sequence_name := "w4", status := ExecutionStatus.FAILED,
             step_results := [(execute_step uartAlwaysOk.lines mockProfile passPlain).1,
                              (execute_step uartAlwaysOk.lines mockProfile failPlain).1],
             pass_count := 1, fail_count := 1,
             error_message := (execute_step uartAlwaysOk.lines mockProfile failPlain).1.message } :=
  first_failure_halts_after_two_results uartAlwaysOk mockProfile "w4" ""
    passPlain failPlain passPlain rfl (by decide) (by decide) (by decide)

/-- C5: the response-scanning loop of `send_command` implements exactly
the claimed line policy: noise-prefixed lines (`HEARTBEAT`, `[`, `CMD:`)
are discarded, the first remaining line starting `OK` yields
`(true, line)`, the first remaining line starting `ERR` yields
`(false, line)`, any other line is ignored, and if the incoming lines are
exhausted without an `OK`/`ERR` line (no such line within the 2-second
window) the result is `(false, "Timeout waiting for response")`. -/
theorem send_command_matches_line_policy (lines : List String) :
    send_command lines = send_command_policy lines := by
  induction lines with
  | nil => rfl
  | cons l rest ih =>
      by_cases hn : isNoise l
      · have hb : (strStartsWith l "HEARTBEAT" || strStartsWith l "[" ||
            strStartsWith l "CMD:") = true := hn
        have h1 : send_command (l :: rest) = send_command rest := by
          simp [send_command, hb]
        have h2 : send_command_policy (l :: rest) = send_command_policy rest := by
          simp [send_command_policy, List.filter_cons, hn]
        rw [h1, h2]; exact ih
      · have hb0 : isNoise l = false := by simpa using hn
        have hb : (strStartsWith l "HEARTBEAT" || strStartsWith l "[" ||
            strStartsWith l "CMD:") = false := hb0
        have hfil : List.filter (fun x => !isNoise x) (l :: rest) =
            l :: List.filter (fun x => !isNoise x) rest := by
          simp [List.filter_cons, hb0]
        by_cases hok : strStartsWith l "OK"
        · have h1 : send_command (l :: rest) = (true, l) := by
            simp [send_command, hb, hok]
          have h2 : send_command_policy (l :: rest) = (strStartsWith l "OK", l) := by
            simp [send_command_policy, hfil, hok]
          rw [h1, h2, hok]
        · have hok0 : strStartsWith l "OK" = false := by simpa using hok
          by_cases herr : strStartsWith l "ERR"
          · have h1 : send_command (l :: rest) = (false, l) := by
              simp [send_command, hb, hok0, herr]
            have h2 : send_command_policy (l :: rest) = (strStartsWith l "OK", l) := by
              simp [send_command_policy, hfil, herr]
            rw [h1, h2, hok0]
          · have herr0 : strStartsWith l "ERR" = false := by simpa using herr
            have h1 : send_command (l :: rest) = send_command rest := by
              simp [send_command, hb, hok0, herr0]
            have h2 : send_command_policy (l :: rest) = send_command_policy rest := by
              simp [send_command_policy, hfil, hok0, herr0]
            rw [h1, h2]; exact ih

/-- Any step produced by a `SequenceBuilder.add_*_step` method survives
the `to_dict`/`from_dict` round trip: builder params never use the
reserved `type` key, so the type tag is recovered and stripped exactly. -/
theorem builder_step_roundtrip (s : SequenceStep) (hb : BuilderStep s) :
    SequenceStep.from_dict (SequenceStep.to_dict s) = some s := by
  rcases hb with ⟨g, rfl⟩ | ⟨n, d, rfl⟩ | ⟨m, dur, u, rfl⟩ | ⟨d, u, rfl⟩ | ⟨c, rfl⟩ |
    ⟨m, rfl⟩ | ⟨m, rfl⟩
  · rfl
  · rfl
  · rcases dur with _ | d2 <;> rfl
  · rfl
  · rfl
  · by_cases hm : m = ""
    · subst hm; rfl
    · simp only [add_pass_step, if_neg hm]; rfl
  · by_cases hm : m = ""
    · subst hm; rfl
    · simp only [add_fail_step, if_neg hm]; rfl

/-- Round trip lifted over a list of builder steps. -/
theorem builder_steps_mapM (l : List SequenceStep) (hb : ∀ s ∈ l, BuilderStep s) :
    (l.map SequenceStep.to_dict).mapM SequenceStep.from_dict = some l := by
  induction l with
  | nil => rfl
  | cons a l ih =>
      rw [List.map_cons, List.mapM_cons,
        builder_step_roundtrip a (hb a (List.mem_cons_self a l)),
        ih (fun s hs => hb s (List.mem_cons_of_mem a hs))]
      rfl

/-- C7: for every Sequence built via the SequenceBuilder API (all of its
steps come from `add_*_step` calls), `from_dict (to_dict seq)` recovers
the sequence exactly — same name, description, step list, step kinds and
params; and for every DUTProfile, `from_dict (to_dict p)` recovers the
profile exactly. -/
theorem serialization_roundtrip :
    (∀ seq : Sequence, (∀ s ∈ seq.steps, BuilderStep s) →
        Sequence.from_dict (Sequence.to_dict seq) = some seq) ∧
    (∀ p : DUTProfile, DUTProfile.from_dict (DUTProfile.to_dict p) = p) := by
  constructor
  · intro seq hb
    unfold Sequence.to_dict Sequence.from_dict
    rw [builder_steps_mapM seq.steps hb]
    rfl
  · intro p
    rfl

/-- Witness for C7: a sequence holding one step of every builder kind,
and the mock profile. -/
theorem serialization_roundtrip_witness :
    Sequence.from_dict (Sequence.to_dict builderDemoSeq) = some builderDemoSeq ∧
    DUTProfile.from_dict (DUTProfile.to_dict mockProfile) = mockProfile := by
  constructor
  · apply serialization_roundtrip.1
    intro s hs
    rcases List.mem_cons.mp hs with rfl | hs
    · exact Or.inl ⟨5, rfl⟩
    rcases List.mem_cons.mp hs with rfl | hs
    · exact Or.inr (Or.inl ⟨2, "blink", rfl⟩)
    rcases List.mem_cons.mp hs with rfl | hs
    · exact Or.inr (Or.inr (Or.inl ⟨"deep", some 3, "seconds", rfl⟩))
    rcases List.mem_cons.mp hs with rfl | hs
    · exact Or.inr (Or.inr (Or.inr (Or.inl ⟨500, "ms", rfl⟩)))
    rcases List.mem_cons.mp hs with rfl | hs
    · exact Or.inr (Or.inr (Or.inr (Or.inr (Or.inl ⟨3, rfl⟩))))
    rcases List.mem_cons.mp hs with rfl | hs
    · exact Or.inr (Or.inr (Or.inr (Or.inr (Or.inr (Or.inl ⟨"", rfl⟩)))))
    rcases List.mem_cons.mp hs with rfl | hs
    · exact Or.inr (Or.inr (Or.inr (Or.inr (Or.inr (Or.inr ⟨"boom", rfl⟩)))))
    · simp at hs
  · exact serialization_roundtrip.2 mockProfile
